import Mathlib

/-!
Verification of the `game-builder` python backend
(`python_backend/asset_manager.py`, `python_backend/game_engine.py`),
shallowly embedded in Lean 4.

Conventions of the embedding:
* python floats are modelled as exact rationals (`ℚ`);
* python dicts keyed by strings are modelled as association lists with
  insert-or-replace semantics;
* the file system and the external DALL-E endpoint are modelled by an
  explicit oracle (`DalleWorld`) plus a set of existing file paths carried
  in the manager state;
* `hashlib.md5` is modelled as an injective function on its input string
  (collision-freeness is the stated design assumption of the cache).
-/

namespace GameBuilder

/-! ### Configuration constants (config.example.py) -/

def MAX_DALLE_REQUESTS_PER_GAME : Nat := 5
def SPRITE_SIZE : Nat := 32
def BACKGROUND_SIZE : Nat × Nat := (800, 600)
def ASSET_CACHE_DIR : String := "cached_assets"
def GAME_WIDTH : Int := 800
def GAME_HEIGHT : Int := 600
def GRAVITY : ℚ := 981
def JUMP_FORCE : ℚ := -500
def MOVE_SPEED : ℚ := 200

/-! ### The JSON game description (as consumed by both components) -/

/-- One entry of `game_data['entities']`. -/
structure EntityD where
  name : String
  type : String
  x : ℚ := 0
  y : ℚ := 0
  width : ℚ := 32
  height : ℚ := 32
  color : Option String := none
  deriving Repr, DecidableEq

/-- One entry of `level['platforms']`. -/
structure PlatformD where
  x : ℚ := 0
  y : ℚ := 0
  width : ℚ := 100
  height : ℚ := 20
  color : Option String := none
  deriving Repr, DecidableEq

/-- One entry of `level['collectibles']`. -/
structure CollectibleD where
  x : ℚ := 0
  y : ℚ := 0
  width : ℚ := 20
  height : ℚ := 20
  points : Int := 10
  deriving Repr, DecidableEq

/-- One entry of `game_data['levels']`.  (`asset_manager.py` never reads a
`background` field of a level; none is modelled.) -/
structure LevelD where
  platforms : List PlatformD := []
  collectibles : List CollectibleD := []
  deriving Repr, DecidableEq

/-- The parsed JSON game description (`GameData` pydantic model in main.py). -/
structure GameData where
  title : String := "Unknown"
  gameType : String := "platformer"
  theme : String := "fantasy"
  artStyle : String := "pixel"
  entities : List EntityD := []
  levels : List LevelD := []
  deriving Repr, DecidableEq

/-! ### Small string helpers (python `in` and `str.lower`) -/

/-- python `sub in s` on character lists. -/
def listContains (sub : List Char) : List Char → Bool
  | [] => sub.isEmpty
  | c :: rest => sub.isPrefixOf (c :: rest) || listContains sub rest

/-- python `sub in s` for strings. -/
def strContains (s sub : String) : Bool :=
  listContains sub.toList s.toList

/-- python `s.lower()` (ASCII, which is all the code compares against). -/
def strLower (s : String) : String :=
  String.mk (s.toList.map Char.toLower)

/-! ### AssetManager: prompts and cache keys -/

/-- `hashlib.md5(content).hexdigest()`, modelled as an injective function of
the content string (the design treats the key as collision-free). -/
def md5Hex (s : String) : String := s

/-- `AssetManager.get_cache_key`: note the key string uses the *global*
`SPRITE_SIZE` constant, not a per-asset size. -/
def get_cache_key (prompt asset_type : String) : String :=
  md5Hex (prompt ++ "_" ++ asset_type ++ "_" ++ toString SPRITE_SIZE)

/-- `AssetManager._create_player_prompt`. -/
def create_player_prompt (gd : GameData) : String :=
  let base := gd.artStyle ++ " art style, " ++ gd.theme ++ " theme, mobile game sprite"
  if gd.gameType == "racing" then
    base ++ ", top-down racing car, sleek design, bright colors, Formula 1 style, detailed wheels, transparent background, 32x32 pixels"
  else if gd.gameType == "flappy" then
    base ++ ", cute flying bird character, colorful feathers, expressive eyes, wings spread, cartoon style, transparent background, 32x32 pixels"
  else if gd.gameType == "shooter" then
    base ++ ", futuristic spaceship, detailed hull, engine thrusters, sci-fi design, metallic finish, transparent background, 32x32 pixels"
  else
    base ++ ", heroic character, detailed armor, determined expression, action pose, RPG quality, transparent background, 32x32 pixels"

/-- `AssetManager._create_background_prompt` (reads only global metadata). -/
def create_background_prompt (gd : GameData) : String :=
  let base := gd.artStyle ++ " art style, " ++ gd.theme ++ " theme, mobile game background"
  if gd.gameType == "racing" then
    base ++ ", professional racing track, asphalt surface, white lane markings, grandstands, aerial view, detailed track, 800x600 resolution"
  else if gd.gameType == "flappy" then
    base ++ ", beautiful sky environment, fluffy clouds, gradient blue sky, distant mountains, parallax layers, bright atmosphere, 800x600 resolution"
  else if gd.gameType == "shooter" then
    base ++ ", deep space environment, star field, nebulae, cosmic dust, sci-fi atmosphere, 800x600 resolution"
  else
    base ++ ", detailed platformer environment, lush forest, rocky platforms, atmospheric lighting, adventure game quality, 800x600 resolution"

/-- `AssetManager._create_enemy_prompt`. -/
def create_enemy_prompt (gd : GameData) : String :=
  gd.artStyle ++ " art style, " ++ gd.theme ++ " theme, enemy creature, menacing appearance, detailed features, hostile design, video game quality, transparent background, 32x32 pixels"

/-- `AssetManager._create_collectible_prompt`. -/
def create_collectible_prompt (gd : GameData) : String :=
  gd.artStyle ++ " art style, " ++ gd.theme ++ " theme, collectible item, shiny treasure, magical glow, valuable object, game pickup, transparent background, 24x24 pixels"

/-- `AssetManager._create_platform_prompt`. -/
def create_platform_prompt (gd : GameData) : String :=
  gd.artStyle ++ " art style, " ++ gd.theme ++ " theme, platform texture, tileable surface, detailed texture, game environment, seamless tile, 64x32 pixels"

/-- One entry of the `priority_requests` list built by
`_identify_priority_assets` (python dict with name/type/prompt/size). -/
structure AssetInfo where
  name : String
  type : String
  prompt : String
  size : Nat × Nat
  deriving Repr, DecidableEq

/-- `AssetManager._identify_priority_assets`. -/
def identify_priority_assets (gd : GameData) : List AssetInfo :=
  let r1 : List AssetInfo :=
    match gd.entities.find? (fun e => e.type == "player") with
    | some p => [⟨p.name, "character", create_player_prompt gd, (SPRITE_SIZE, SPRITE_SIZE)⟩]
    | none => []
  let r2 : List AssetInfo :=
    match gd.levels with
    | [] => []
    | _ :: _ => [⟨"background", "background", create_background_prompt gd, BACKGROUND_SIZE⟩]
  let r3 : List AssetInfo :=
    match (gd.entities.filter (fun e => strContains (strLower e.name) "enemy")).head? with
    | some e => [⟨e.name, "character", create_enemy_prompt gd, (SPRITE_SIZE, SPRITE_SIZE)⟩]
    | none => []
  let r4 : List AssetInfo :=
    match (gd.levels.map LevelD.collectibles).flatten with
    | [] => []
    | _ :: _ => [⟨"collectible", "item", create_collectible_prompt gd, (24, 24)⟩]
  let r5 : List AssetInfo :=
    match (gd.levels.map LevelD.platforms).flatten with
    | [] => []
    | _ :: _ => [⟨"platform", "tile", create_platform_prompt gd, (64, 32)⟩]
  (r1 ++ r2 ++ r3 ++ r4 ++ r5).take MAX_DALLE_REQUESTS_PER_GAME

/-- The cache key actually computed for a ranked candidate at
`_generate_dalle_asset` line 193: `get_cache_key(prompt, type)` — the
candidate's `size` field is not consulted. -/
def cacheKeyOfAsset (a : AssetInfo) : String :=
  get_cache_key a.prompt a.type

/-! ### AssetManager: the generation pipeline -/

/-- python dict lookup on an association list. -/
def dictGet (m : List (String × String)) (k : String) : Option String :=
  (m.find? (fun p => p.1 == k)).map (fun p => p.2)

/-- python dict assignment `m[k] = v` (replace in place if the key is
present, else append; keys are unique by construction). -/
def dictPut : List (String × String) → String → String → List (String × String)
  | [], k, v => [(k, v)]
  | p :: m, k, v => if p.1 == k then (k, v) :: m else p :: dictPut m k v

/-- Record a file as existing on disk. -/
def touchFile (files : List String) (path : String) : List String :=
  if files.contains path then files else files ++ [path]

/-- Mutable state of the `AssetManager` instance, together with the set of
artifact files on disk.  `attempts` instruments the number of times the
external endpoint (`requests.post`) was actually invoked; it is not a field
of the python object. -/
structure AMState where
  asset_cache : List (String × String) := []
  files : List String := []
  dalle_request_count : Nat := 0
  attempts : Nat := 0
  deriving Repr, DecidableEq

/-- Oracle for the external world: the outcome of the n-th external
generation call of an invocation, and whether the two persistence writes
(`image.save` for the artifact, `save_cache` for the index) raise. -/
structure DalleWorld where
  callOk : Nat → Bool
  imageSaveOk : Nat → Bool
  indexSaveOk : Nat → Bool

/-- The `try:` block of `_generate_dalle_asset` (the external call and the
persistence writes; any raised exception is caught and `None` returned). -/
def dalleAttempt (w : DalleWorld) (st : AMState) (a : AssetInfo) : Option String × AMState :=
  let n := st.attempts
  let st := { st with attempts := n + 1 }
  if w.callOk n then
    let key := cacheKeyOfAsset a
    let asset_path := ASSET_CACHE_DIR ++ "/" ++ key ++ ".png"
    if w.imageSaveOk n then
      let st := { st with files := touchFile st.files asset_path }
      let st := { st with asset_cache := dictPut st.asset_cache key asset_path }
      if w.indexSaveOk n then
        (some asset_path, st)
      else
        (none, st)
    else
      (none, st)
  else
    (none, st)

/-- `AssetManager._generate_dalle_asset`: cache consultation, then the
external call.  A cache-index entry whose artifact file is missing falls
through to generation. -/
def generate_dalle_asset (w : DalleWorld) (st : AMState) (a : AssetInfo) :
    Option String × AMState :=
  let key := cacheKeyOfAsset a
  match dictGet st.asset_cache key with
  | some _ =>
      let cached_path := ASSET_CACHE_DIR ++ "/" ++ key ++ ".png"
      if st.files.contains cached_path then (some cached_path, st)
      else dalleAttempt w st a
  | none => dalleAttempt w st a

/-- `self.dalle_request_count += 1`. -/
def bumpCount (st : AMState) : AMState :=
  { st with dalle_request_count := st.dalle_request_count + 1 }

/-- The step-2 loop of `generate_game_assets`: for each ranked candidate,
break once `dalle_request_count` reaches the budget, otherwise call
`_generate_dalle_asset` and — whenever it returned a path (fresh *or*
cached) — bind it and increment `dalle_request_count`. -/
def genLoop (w : DalleWorld) :
    AMState → List AssetInfo → List (String × String) → List (String × String) × AMState
  | st, [], assets => (assets, st)
  | st, a :: rest, assets =>
    if st.dalle_request_count ≥ MAX_DALLE_REQUESTS_PER_GAME then (assets, st)
    else
      let r := generate_dalle_asset w st a
      match r.1 with
      | some path => genLoop w (bumpCount r.2) rest (dictPut assets a.name path)
      | none => genLoop w r.2 rest assets

/-- `AssetManager._create_fallback_asset`: deterministic colored-rectangle
artifact addressed by entity name and color. -/
def create_fallback_asset (st : AMState) (e : EntityD) : String × AMState :=
  let color := e.color.getD "#4A90E2"
  let cache_key := "fallback_" ++ e.name ++ "_" ++ color
  let asset_path := ASSET_CACHE_DIR ++ "/" ++ cache_key ++ ".png"
  (asset_path, { st with files := touchFile st.files asset_path })

/-- The step-3 loop of `generate_game_assets`: every remaining entity is
bound to a fallback artifact. -/
def fallbackLoop :
    AMState → List EntityD → List (String × String) → List (String × String) × AMState
  | st, [], assets => (assets, st)
  | st, e :: rest, assets =>
      let r := create_fallback_asset st e
      fallbackLoop r.2 rest (dictPut assets e.name r.1)

/-- `AssetManager._get_remaining_entities`. -/
def get_remaining_entities (gd : GameData) (assets : List (String × String)) :
    List EntityD :=
  gd.entities.filter (fun e => (dictGet assets e.name).isNone)

/-- `AssetManager.generate_game_assets`: the full pipeline.  Returns the
`asset_name -> file_path` mapping and the final manager state. -/
def generate_game_assets (w : DalleWorld) (st : AMState) (gd : GameData) :
    List (String × String) × AMState :=
  let st0 := { st with dalle_request_count := 0, attempts := 0 }
  let r := genLoop w st0 (identify_priority_assets gd) []
  fallbackLoop r.2 (get_remaining_entities gd r.1) r.1

/-! ### Game engine: runtime objects (game_engine.py)

`GameObject` and its subclasses are modelled as one record with a tagged
variant for the subclass-specific fields.  python's aliasing — `enemies`,
`collectibles`, `platforms` and `player` hold the same objects as
`all_objects` — is modelled by keeping `all_objects` as the single backing
store: the typed lists are exactly the objects of the matching kind, in
order (they are appended to both lists together at creation time), and
`player` is an index into the store. -/

inductive ObjKind where
  | plainObj
  | playerObj (health : Int) (on_ground : Bool) (can_jump : Bool)
  | enemyObj (speed : ℚ) (direction : Int) (patrol_range : ℚ) (start_x : ℚ)
  | collectibleObj (points : Int) (collected : Bool)
  | platformObj
  deriving Repr, DecidableEq

/-- A runtime `GameObject` (shared fields of the base class plus the
variant tag). -/
structure Obj where
  name : String
  x : ℚ
  y : ℚ
  width : ℚ
  height : ℚ
  velocity_x : ℚ := 0
  velocity_y : ℚ := 0
  color : Int × Int × Int := (255, 255, 255)
  sprite : Bool := false
  active : Bool := true
  kind : ObjKind := .plainObj
  deriving Repr, DecidableEq

def isEnemy (o : Obj) : Bool :=
  match o.kind with | .enemyObj _ _ _ _ => true | _ => false

def isCollectible (o : Obj) : Bool :=
  match o.kind with | .collectibleObj _ _ => true | _ => false

def isPlayerK (o : Obj) : Bool :=
  match o.kind with | .playerObj _ _ _ => true | _ => false

def healthOf (o : Obj) : Option Int :=
  match o.kind with | .playerObj h _ _ => some h | _ => none

def collectedOf (o : Obj) : Option Bool :=
  match o.kind with | .collectibleObj _ c => some c | _ => none

def setHealth (h : Int) (o : Obj) : Obj :=
  match o.kind with
  | .playerObj _ g c => { o with kind := .playerObj h g c }
  | _ => o

/-- `GameObject.update`: kinematic integration. -/
def gameObjectUpdate (dt : ℚ) (o : Obj) : Obj :=
  { o with x := o.x + o.velocity_x * dt, y := o.y + o.velocity_y * dt }

/-- The patrol direction logic at the head of `Enemy.update`. -/
def enemyNewDirection (x sx pr : ℚ) (dir : Int) : Int :=
  if x ≥ sx + pr then -1 else if x ≤ sx then 1 else dir

/-- Dynamic dispatch of `obj.update(dt)`: `Enemy` overrides it with patrol
AI followed by the base-class integration, every other class inherits the
base-class integration. -/
def objUpdate (dt : ℚ) (o : Obj) : Obj :=
  match o.kind with
  | .enemyObj speed dir pr sx =>
      let dir' := enemyNewDirection o.x sx pr dir
      gameObjectUpdate dt
        { o with velocity_x := speed * (dir' : ℚ), kind := .enemyObj speed dir' pr sx }
  | _ => gameObjectUpdate dt o

/-- `Collectible.collect`: returns the awarded points and the object. -/
def collect (o : Obj) : Int × Obj :=
  match o.kind with
  | .collectibleObj pts c =>
      if ! c then (pts, { o with active := false, kind := .collectibleObj pts true })
      else (0, o)
  | _ => (0, o)

/-! ### Game engine: rectangles and collision (pygame.Rect) -/

/-- C-style float-to-int conversion used by `pygame.Rect` (toward zero). -/
def pyTrunc (q : ℚ) : Int := if 0 ≤ q then ⌊q⌋ else ⌈q⌉

structure PyRect where
  x : Int
  y : Int
  w : Int
  h : Int
  deriving Repr, DecidableEq

def rectOf (o : Obj) : PyRect :=
  ⟨pyTrunc o.x, pyTrunc o.y, pyTrunc o.width, pyTrunc o.height⟩

/-- `pygame.Rect.colliderect` (strict overlap on both axes). -/
def colliderect (a b : PyRect) : Bool :=
  decide (a.x < b.x + b.w) && decide (a.y < b.y + b.h) &&
  decide (a.x + a.w > b.x) && decide (a.y + a.h > b.y)

/-! ### Game engine: state -/

/-- The `GameState` dataclass, with its default values. -/
structure GState where
  score : Int := 0
  health : Int := 100
  time : ℚ := 0
  level : Int := 0
  lives : Int := 3
  game_over : Bool := false
  win : Bool := false
  deriving Repr, DecidableEq

/-- The player's pymunk body (center position and velocity). -/
structure Body where
  px : ℚ
  py : ℚ
  vx : ℚ := 0
  vy : ℚ := 0
  deriving Repr, DecidableEq

/-- The `PygameGameEngine` session state (simulation-relevant fields). -/
structure Engine where
  width : Int := GAME_WIDTH
  height : Int := GAME_HEIGHT
  game_state : GState := {}
  objects : List Obj := []
  player_idx : Option Nat := none
  body : Option Body := none
  camera_x : ℚ := 0
  camera_y : ℚ := 0
  game_data : GameData := {}
  assets : List String := []
  background : Bool := false
  deriving Repr, DecidableEq

/-- In-place mutation of the i-th element of a backing list. -/
def modifyAt {α : Type} : List α → Nat → (α → α) → List α
  | [], _, _ => []
  | o :: l, 0, f => f o :: l
  | o :: l, i+1, f => o :: modifyAt l i f

def getObj (l : List Obj) (i : Nat) : Option Obj := l[i]?

/-- The physics sync in `update`: logical position from the body center
(offset by half extents) and the `on_ground` heuristic `|v_y| < 10`. -/
def syncPlayerObj (b : Body) (o : Obj) : Obj :=
  let o := { o with x := b.px - o.width / 2, y := b.py - o.height / 2 }
  match o.kind with
  | .playerObj h _ cj => { o with kind := .playerObj h (decide (|b.vy| < 10)) cj }
  | _ => o

def syncPlayer (s : Engine) : Engine :=
  match s.player_idx, s.body with
  | some pi, some b => { s with objects := modifyAt s.objects pi (syncPlayerObj b) }
  | _, _ => s

/-- The collectible loop of `_check_collisions`: objects in list order; an
active collectible overlapping the player rect is collected and its points
added to the running score. -/
def collectPass (prect : PyRect) : List Obj → Int → List Obj × Int
  | [], sc => ([], sc)
  | o :: rest, sc =>
      if isCollectible o && o.active && colliderect prect (rectOf o) then
        let c := collect o
        let r := collectPass prect rest (sc + c.1)
        (c.2 :: r.1, r.2)
      else
        let r := collectPass prect rest sc
        (o :: r.1, r.2)

/-- The enemy loop of `_check_collisions`: each active overlapping enemy
costs the player 10 health; `game_over` is raised whenever the running
health is ≤ 0. -/
def enemyPass (prect : PyRect) : List Obj → Int → Bool → Int × Bool
  | [], h, go => (h, go)
  | o :: rest, h, go =>
      if isEnemy o && o.active && colliderect prect (rectOf o) then
        enemyPass prect rest (h - 10) (go || decide (h - 10 ≤ 0))
      else enemyPass prect rest h go

/-- `PygameGameEngine._check_collisions`. -/
def check_collisions (s : Engine) : Engine :=
  match s.player_idx with
  | none => s
  | some pi =>
      match getObj s.objects pi with
      | none => s
      | some p =>
          let prect := rectOf p
          let r := collectPass prect s.objects s.game_state.score
          let r2 := enemyPass prect r.1 ((healthOf p).getD 100) s.game_state.game_over
          { s with
            objects := modifyAt r.1 pi (setHealth r2.1),
            game_state := { s.game_state with score := r.2, game_over := r2.2 } }

/-- `PygameGameEngine._update_camera` (`//` is python floor division on the
int viewport size; the smoothing constant 0.1 is idealized as 1/10). -/
def update_camera (s : Engine) : Engine :=
  match s.player_idx with
  | none => s
  | some pi =>
      match getObj s.objects pi with
      | none => s
      | some p =>
          let target_x := p.x - ((s.width / 2 : Int) : ℚ)
          let target_y := p.y - ((s.height / 2 : Int) : ℚ)
          { s with camera_x := s.camera_x + (target_x - s.camera_x) * (1 / 10),
                   camera_y := s.camera_y + (target_y - s.camera_y) * (1 / 10) }

def collectiblesOf (objs : List Obj) : List Obj := objs.filter isCollectible

/-- The win condition checked by `_check_game_conditions`:
`all(not c.active for c in collectibles) and len(collectibles) > 0`. -/
def winCond (objs : List Obj) : Bool :=
  (collectiblesOf objs).all (fun c => ! c.active)
    && decide (0 < (collectiblesOf objs).length)

/-- `PygameGameEngine._check_game_conditions`. -/
def check_game_conditions (s : Engine) : Engine :=
  let s :=
    if winCond s.objects then
      { s with game_state := { s.game_state with win := true } }
    else s
  match s.player_idx with
  | none => s
  | some pi =>
      match getObj s.objects pi with
      | none => s
      | some p =>
          if p.y > (s.height : ℚ) + 200 then
            { s with game_state := { s.game_state with game_over := true } }
          else s

/-- `self.game_state.time += dt`. -/
def stepTime (dt : ℚ) (s : Engine) : Engine :=
  { s with game_state := { s.game_state with time := s.game_state.time + dt } }

/-- `self.space.step(dt)` — only the player's dynamic body evolves (the
platform bodies are static); `phys` is the external pymunk integration. -/
def stepPhys (phys : Body → ℚ → Body) (dt : ℚ) (s : Engine) : Engine :=
  match s.body with
  | some b => { s with body := some (phys b dt) }
  | none => s

/-- The body of `for obj in self.all_objects: if obj.active: obj.update(dt)`. -/
def activeUpdate (dt : ℚ) (o : Obj) : Obj :=
  if o.active then objUpdate dt o else o

/-- The body of `for enemy in self.enemies: if enemy.active: enemy.update(dt)`
(the enemies list holds exactly the enemy-kind objects of the store). -/
def activeEnemyUpdate (dt : ℚ) (o : Obj) : Obj :=
  if o.active && isEnemy o then objUpdate dt o else o

def stepAllObjects (dt : ℚ) (s : Engine) : Engine :=
  { s with objects := s.objects.map (activeUpdate dt) }

def stepEnemies (dt : ℚ) (s : Engine) : Engine :=
  { s with objects := s.objects.map (activeEnemyUpdate dt) }

/-- `PygameGameEngine.update(dt)`: time, physics, player sync, the
all-objects pass, the enemies pass, collisions, camera, win/lose check. -/
def update (phys : Body → ℚ → Body) (dt : ℚ) (s : Engine) : Engine :=
  check_game_conditions (update_camera (check_collisions
    (stepEnemies dt (stepAllObjects dt (syncPlayer (stepPhys phys dt (stepTime dt s)))))))

/-- The collectible reset loop of `reset_game`. -/
def resetCollectible (o : Obj) : Obj :=
  match o.kind with
  | .collectibleObj pts _ => { o with active := true, kind := .collectibleObj pts false }
  | _ => o

/-- `PygameGameEngine.reset_game`. -/
def reset_game (s : Engine) : Engine :=
  let s := { s with game_state := {} }
  let s :=
    match s.player_idx with
    | some pi =>
        let s := { s with objects := modifyAt s.objects pi (setHealth 100) }
        match s.body with
        | some b => { s with body := some { b with px := 100, py := 400 } }
        | none => s
    | none => s
  { s with objects := s.objects.map resetCollectible }

/-! ### Game engine: entity creation (`_create_entities`) -/

/-- Value of one hex digit; python's `int(.., 16)` raises on anything
else (malformed colors are out of scope and mapped to 0). -/
def hexVal (c : Char) : Int :=
  if '0' ≤ c ∧ c ≤ '9' then ((c.toNat - '0'.toNat : Nat) : Int)
  else if 'a' ≤ c ∧ c ≤ 'f' then ((c.toNat - 'a'.toNat + 10 : Nat) : Int)
  else if 'A' ≤ c ∧ c ≤ 'F' then ((c.toNat - 'A'.toNat + 10 : Nat) : Int)
  else 0

/-- python `tuple(int(s[i:i+2], 16) for i in (0, 2, 4))`. -/
def parseHexColor (cs : List Char) : Int × Int × Int :=
  match cs with
  | c1 :: c2 :: c3 :: c4 :: c5 :: c6 :: _ =>
      (16 * hexVal c1 + hexVal c2, 16 * hexVal c3 + hexVal c4, 16 * hexVal c5 + hexVal c6)
  | _ => (0, 0, 0)

/-- The color block of `_create_entities`: a `#`-literal is parsed,
anything else yields white. -/
def entityColor (e : EntityD) : Int × Int × Int :=
  match (e.color.getD "#FFFFFF").toList with
  | '#' :: rest => parseHexColor rest
  | _ => (255, 255, 255)

def mkPlayerObj (assets : List String) (e : EntityD) : Obj :=
  { name := e.name, x := e.x, y := e.y, width := e.width, height := e.height,
    sprite := assets.contains e.name, kind := .playerObj 100 false true }

def mkEnemyObj (assets : List String) (e : EntityD) : Obj :=
  { name := e.name, x := e.x, y := e.y, width := e.width, height := e.height,
    sprite := assets.contains e.name, kind := .enemyObj 50 1 100 e.x }

/-- `for obj in self.all_objects[-1:]: if not obj.sprite: obj.color = color`. -/
def applyColorLast : List Obj → Int × Int × Int → List Obj
  | [], _ => []
  | [o], c => [if ! o.sprite then { o with color := c } else o]
  | o :: o2 :: rest, c => o :: applyColorLast (o2 :: rest) c

/-- The entity filter implicit in `_create_entities`' branch structure: a
`GameObject` is created exactly for type `player` or a type/name
containing `enemy` (case-insensitive). -/
def isSimEntity (e : EntityD) : Bool :=
  e.type == "player"
    || strContains (strLower e.type) "enemy"
    || strContains (strLower e.name) "enemy"

/-- One iteration of the `_create_entities` loop. -/
def create_entity_step (assets : List String) (objs : List Obj) (e : EntityD) : List Obj :=
  let objs' :=
    if e.type == "player" then objs ++ [mkPlayerObj assets e]
    else if strContains (strLower e.type) "enemy" || strContains (strLower e.name) "enemy" then
      objs ++ [mkEnemyObj assets e]
    else objs
  applyColorLast objs' (entityColor e)

/-- `PygameGameEngine._create_entities` (the resulting `all_objects`). -/
def create_entities (assets : List String) (es : List EntityD) : List Obj :=
  es.foldl (create_entity_step assets) []

/-! ### Derived notions used by the statements -/

/-- The per-object transformation performed by the collectible loop. -/
def collectStep (prect : PyRect) (o : Obj) : Obj :=
  if isCollectible o && o.active && colliderect prect (rectOf o) then (collect o).2 else o

/-- A collectible's declared point value is non-negative (trivially true
for every other kind). -/
def pointsOk (o : Obj) : Bool :=
  match o.kind with
  | .collectibleObj pts _ => decide (0 ≤ pts)
  | _ => true

/-- The description-derived, immutable part of a runtime object (everything
except the mutable health/direction/collected/on-ground state and the
active flag). -/
def stripMut (o : Obj) : String × ℚ × ℚ × ℚ × ℚ × (Int × Int × Int) × Bool :=
  (o.name, o.x, o.y, o.width, o.height, o.color, o.sprite)

/-! ### Concrete inputs used by witnesses and counterexamples -/

/-- A fresh manager state: empty cache index, no artifacts on disk. -/
def stEmpty : AMState := {}

/-- Oracle: every external call succeeds, every write persists. -/
def wOk : DalleWorld := ⟨fun _ => true, fun _ => true, fun _ => true⟩

/-- Oracle: every external call fails. -/
def wFail : DalleWorld := ⟨fun _ => false, fun _ => true, fun _ => true⟩

/-- Oracle: calls and artifact writes succeed, the cache-index write raises. -/
def wIndexFail : DalleWorld := ⟨fun _ => true, fun _ => true, fun _ => false⟩

def heroE : EntityD := { name := "hero", type := "player", x := 100, y := 400 }

def enemy1E : EntityD := { name := "enemy_1", type := "enemy", x := 300, y := 400 }

/-- The level of the worked example of the spec: two platforms, one
collectible worth 10 points, no background field. -/
def lvl4 : LevelD :=
  { platforms := [{}, { x := 200 }], collectibles := [{ x := 150, y := 350, points := 10 }] }

/-- The worked example description: one player, one enemy named
`enemy_1`, one level with 2 platforms and 1 collectible. -/
def gdExample : GameData := { title := "T", entities := [heroE, enemy1E], levels := [lvl4] }

/-- A description with a single player entity and no levels. -/
def gdHero : GameData := { entities := [heroE] }

/-- The ranked player candidate of `gdHero`. -/
def heroCand : AssetInfo :=
  ⟨"hero", "character", create_player_prompt gdHero, (SPRITE_SIZE, SPRITE_SIZE)⟩

/-- A manager state whose cache already holds the player candidate of
`gdHero` with its artifact present on disk. -/
def stHit : AMState :=
  { asset_cache := [(cacheKeyOfAsset heroCand,
      ASSET_CACHE_DIR ++ "/" ++ cacheKeyOfAsset heroCand ++ ".png")],
    files := [ASSET_CACHE_DIR ++ "/" ++ cacheKeyOfAsset heroCand ++ ".png"] }

/-- A 24×24 item candidate. -/
def candSmall : AssetInfo := ⟨"collectible", "item", "demo prompt", (24, 24)⟩

/-- An 800×600 candidate agreeing with `candSmall` on prompt and category. -/
def candLarge : AssetInfo := ⟨"bg", "item", "demo prompt", (800, 600)⟩

/-- Trivial physics oracle (no body is attached in the demo engines). -/
def physDrop : Body → ℚ → Body := fun b _ => b

/-- A patrol enemy at its spawn x. -/
def enemyDemo : Obj :=
  { name := "enemy_1", x := 0, y := 0, width := 32, height := 32,
    kind := .enemyObj 50 1 100 0 }

/-- An engine whose store holds the single enemy `enemyDemo`. -/
def engEnemy : Engine := { objects := [enemyDemo] }

def playerDemo : Obj :=
  { name := "hero", x := 0, y := 0, width := 32, height := 32,
    kind := .playerObj 100 false true }

/-- An active, uncollected collectible worth −5 points overlapping the player. -/
def collNeg : Obj :=
  { name := "collectible_0", x := 0, y := 0, width := 20, height := 20,
    kind := .collectibleObj (-5) false }

/-- Same geometry, worth +10 points. -/
def collPos : Obj :=
  { name := "collectible_0", x := 0, y := 0, width := 20, height := 20,
    kind := .collectibleObj 10 false }

/-- Engine in which the player overlaps a −5-point collectible. -/
def engNeg : Engine := { objects := [playerDemo, collNeg], player_idx := some 0 }

/-- Engine in which the player overlaps a +10-point collectible. -/
def engPos : Engine := { objects := [playerDemo, collPos], player_idx := some 0 }

/-- A mid-session engine state: damaged player, collected collectible,
nonzero score/time, both terminal flags raised. -/
def engMid : Engine :=
  { objects := [{ playerDemo with kind := .playerObj 40 true true },
                { collNeg with active := false, kind := .collectibleObj (-5) true }],
    player_idx := some 0,
    body := some { px := 7, py := 8, vx := 1, vy := 2 },
    game_state := { score := 55, time := 9, game_over := true, win := true } }

/-- An entity of type `item`: no GameObject is created for it. -/
def itemE : EntityD := { name := "coin", type := "item", color := some "#FF0000" }

def heroPlainE : EntityD := { name := "hero", type := "player" }

/-! ### Dictionary and pipeline lemmas -/

theorem dictGet_nil (k : String) : dictGet [] k = none := rfl

theorem dictGet_cons (p : String × String) (m : List (String × String)) (k : String) :
    dictGet (p :: m) k = if p.1 == k then some p.2 else dictGet m k := by
  by_cases h : p.1 == k <;> simp [dictGet, List.find?, h]

theorem dictGet_dictPut (m : List (String × String)) (k v k' : String) :
    dictGet (dictPut m k v) k' = if k' = k then some v else dictGet m k' := by
  induction m with
  | nil =>
      by_cases h : k' = k
      · subst h; simp [dictPut, dictGet_cons]
      · have h' : ¬ k = k' := fun hh => h hh.symm
        simp [dictPut, dictGet_cons, dictGet_nil, h, h']
  | cons p m ih =>
      by_cases hp : p.1 = k
      · subst hp
        simp only [dictPut, beq_self_eq_true, if_pos]
        rw [dictGet_cons, dictGet_cons]
        by_cases h : k' = p.1
        · subst h; simp
        · have h' : ¬ p.1 = k' := fun hh => h hh.symm
          simp [h, h']
      · have hp' : ¬ (p.1 == k) = true := by simpa using hp
        simp only [dictPut, if_neg hp']
        rw [dictGet_cons, dictGet_cons, ih]
        by_cases hq : p.1 = k'
        · have h : ¬ k' = k := fun hh => hp (hq.trans hh)
          simp [hq, h]
        · have hq' : ¬ (p.1 == k') = true := by simpa using hq
          simp [hq']

theorem isSome_dictGet_dictPut (m : List (String × String)) (k v k' : String)
    (h : (dictGet m k').isSome = true) :
    (dictGet (dictPut m k v) k').isSome = true := by
  rw [dictGet_dictPut]
  by_cases hk : k' = k <;> simp [hk, h]

theorem contains_touchFile (fs : List String) (p : String) :
    (touchFile fs p).contains p = true := by
  by_cases h : p ∈ fs
  · have h' : fs.contains p = true := by simpa using h
    simp [touchFile, h', h]
  · have h' : ¬ fs.contains p = true := by simpa using h
    simp [touchFile, h', h]

theorem dalleAttempt_attempts (w : DalleWorld) (st : AMState) (a : AssetInfo) :
    (dalleAttempt w st a).2.attempts = st.attempts + 1 := by
  simp only [dalleAttempt]
  by_cases h1 : w.callOk st.attempts
  · by_cases h2 : w.imageSaveOk st.attempts
    · by_cases h3 : w.indexSaveOk st.attempts <;> simp [h1, h2, h3]
    · simp [h1, h2]
  · simp [h1]

theorem generate_dalle_asset_attempts_le (w : DalleWorld) (st : AMState) (a : AssetInfo) :
    (generate_dalle_asset w st a).2.attempts ≤ st.attempts + 1 := by
  simp only [generate_dalle_asset]
  cases h : dictGet st.asset_cache (cacheKeyOfAsset a) with
  | none => simp [dalleAttempt_attempts]
  | some v =>
      by_cases hf : st.files.contains (ASSET_CACHE_DIR ++ "/" ++ cacheKeyOfAsset a ++ ".png") = true
      · rw [if_pos hf]
        exact Nat.le_succ _
      · rw [if_neg hf]
        rw [dalleAttempt_attempts]

theorem genLoop_attempts_le (w : DalleWorld) (l : List AssetInfo) :
    ∀ (st : AMState) (assets : List (String × String)),
      (genLoop w st l assets).2.attempts ≤ st.attempts + l.length := by
  induction l with
  | nil => intro st assets; simp [genLoop]
  | cons a rest ih =>
      intro st assets
      simp only [genLoop]
      by_cases hb : st.dalle_request_count ≥ MAX_DALLE_REQUESTS_PER_GAME
      · simp only [if_pos hb]; simp
      · rw [if_neg hb]
        have hg := generate_dalle_asset_attempts_le w st a
        cases hr : (generate_dalle_asset w st a).1 with
        | some path =>
            simp only [hr]
            have h2 := ih (bumpCount (generate_dalle_asset w st a).2) (dictPut assets a.name path)
            have ha : (bumpCount (generate_dalle_asset w st a).2).attempts
                = (generate_dalle_asset w st a).2.attempts := rfl
            simp only [List.length_cons]
            omega
        | none =>
            simp only [hr]
            have h2 := ih (generate_dalle_asset w st a).2 assets
            simp only [List.length_cons]
            omega

theorem fallbackLoop_attempts (l : List EntityD) :
    ∀ (st : AMState) (assets : List (String × String)),
      (fallbackLoop st l assets).2.attempts = st.attempts := by
  induction l with
  | nil => intro st assets; simp [fallbackLoop]
  | cons e rest ih =>
      intro st assets
      simp only [fallbackLoop]
      rw [ih]
      rfl

theorem genLoop_preserves_binding (w : DalleWorld) (l : List AssetInfo) :
    ∀ (st : AMState) (assets : List (String × String)) (n : String),
      (dictGet assets n).isSome = true →
      (dictGet (genLoop w st l assets).1 n).isSome = true := by
  induction l with
  | nil => intro st assets n h; simpa [genLoop] using h
  | cons a rest ih =>
      intro st assets n h
      simp only [genLoop]
      by_cases hb : st.dalle_request_count ≥ MAX_DALLE_REQUESTS_PER_GAME
      · simpa [if_pos hb] using h
      · rw [if_neg hb]
        cases hr : (generate_dalle_asset w st a).1 with
        | some path =>
            simp only [hr]
            exact ih _ _ n (isSome_dictGet_dictPut _ _ _ _ h)
        | none =>
            simp only [hr]
            exact ih _ _ n h

theorem fallbackLoop_binds (l : List EntityD) :
    ∀ (st : AMState) (assets : List (String × String)) (e : EntityD),
      (e ∈ l ∨ (dictGet assets e.name).isSome = true) →
      (dictGet (fallbackLoop st l assets).1 e.name).isSome = true := by
  induction l with
  | nil =>
      rintro st assets e (h | h)
      · cases h
      · simpa [fallbackLoop] using h
  | cons f rest ih =>
      rintro st assets e (h | h)
      · rcases List.mem_cons.mp h with rfl | hmem
        · refine ih _ _ e (Or.inr ?_)
          rw [dictGet_dictPut]
          simp
        · exact ih _ _ e (Or.inl hmem)
      · exact ih _ _ e (Or.inr (isSome_dictGet_dictPut _ _ _ _ h))

/-! ### Object-level lemmas -/

theorem isEnemy_objUpdate (dt : ℚ) (o : Obj) : isEnemy (objUpdate dt o) = isEnemy o := by
  cases h : o.kind <;> simp [objUpdate, gameObjectUpdate, isEnemy, h]

theorem active_objUpdate (dt : ℚ) (o : Obj) : (objUpdate dt o).active = o.active := by
  cases h : o.kind <;> simp [objUpdate, gameObjectUpdate, h]

theorem isCollectible_objUpdate (dt : ℚ) (o : Obj) :
    isCollectible (objUpdate dt o) = isCollectible o := by
  cases h : o.kind <;> simp [objUpdate, gameObjectUpdate, isCollectible, h]

theorem pointsOk_objUpdate (dt : ℚ) (o : Obj) : pointsOk (objUpdate dt o) = pointsOk o := by
  cases h : o.kind <;> simp [objUpdate, gameObjectUpdate, pointsOk, h]

theorem objUpdate_of_not_enemy (dt : ℚ) (o : Obj) (h : isEnemy o = false) :
    objUpdate dt o = gameObjectUpdate dt o := by
  cases hk : o.kind <;> simp_all [objUpdate, isEnemy, hk]

theorem collect_snd_pos (o : Obj) : ((collect o).2.x = o.x ∧ (collect o).2.y = o.y) := by
  cases hk : o.kind with
  | collectibleObj pts c => cases c <;> simp [collect, hk]
  | _ => simp [collect, hk]

theorem collect_snd_isCollectible (o : Obj) : isCollectible (collect o).2 = isCollectible o := by
  cases hk : o.kind with
  | collectibleObj pts c => cases c <;> simp [collect, isCollectible, hk]
  | _ => simp [collect, hk]

theorem collect_snd_pointsOk (o : Obj) : pointsOk (collect o).2 = pointsOk o := by
  cases hk : o.kind with
  | collectibleObj pts c => cases c <;> simp [collect, pointsOk, hk]
  | _ => simp [collect, hk]

theorem collect_fst_nonneg (o : Obj) (h : pointsOk o = true) : 0 ≤ (collect o).1 := by
  cases hk : o.kind with
  | collectibleObj pts c =>
      have : (0 : Int) ≤ pts := by simpa [pointsOk, hk] using h
      cases c <;> simp [collect, hk] <;> omega
  | _ => simp [collect, hk]

theorem collectStep_pos (prect : PyRect) (o : Obj) :
    (collectStep prect o).x = o.x ∧ (collectStep prect o).y = o.y := by
  unfold collectStep
  by_cases h : isCollectible o && o.active && colliderect prect (rectOf o)
  · simp [h, collect_snd_pos]
  · simp [h]

theorem collectStep_isCollectible (prect : PyRect) (o : Obj) :
    isCollectible (collectStep prect o) = isCollectible o := by
  unfold collectStep
  by_cases h : isCollectible o && o.active && colliderect prect (rectOf o)
  · simp [h, collect_snd_isCollectible]
  · simp [h]

theorem collectStep_pointsOk (prect : PyRect) (o : Obj) :
    pointsOk (collectStep prect o) = pointsOk o := by
  unfold collectStep
  by_cases h : isCollectible o && o.active && colliderect prect (rectOf o)
  · simp [h, collect_snd_pointsOk]
  · simp [h]

theorem collectStep_inactive (prect : PyRect) (o : Obj) (h : o.active = false) :
    collectStep prect o = o := by
  simp [collectStep, h]

theorem collectStep_enemy (prect : PyRect) (o : Obj) (h : isEnemy o = true) :
    collectStep prect o = o := by
  have hc : isCollectible o = false := by
    cases hk : o.kind <;> simp_all [isEnemy, isCollectible, hk]
  simp [collectStep, hc]

theorem setHealth_isCollectible (h : Int) (o : Obj) :
    isCollectible (setHealth h o) = isCollectible o := by
  cases hk : o.kind <;> simp [setHealth, isCollectible, hk]

theorem setHealth_active (h : Int) (o : Obj) : (setHealth h o).active = o.active := by
  cases hk : o.kind <;> simp [setHealth, hk]

theorem setHealth_pointsOk (h : Int) (o : Obj) : pointsOk (setHealth h o) = pointsOk o := by
  cases hk : o.kind <;> simp [setHealth, pointsOk, hk]

theorem syncPlayerObj_isCollectible (b : Body) (o : Obj) :
    isCollectible (syncPlayerObj b o) = isCollectible o := by
  cases hk : o.kind <;> simp [syncPlayerObj, isCollectible, hk]

theorem syncPlayerObj_active (b : Body) (o : Obj) : (syncPlayerObj b o).active = o.active := by
  cases hk : o.kind <;> simp [syncPlayerObj, hk]

theorem syncPlayerObj_pointsOk (b : Body) (o : Obj) :
    pointsOk (syncPlayerObj b o) = pointsOk o := by
  cases hk : o.kind <;> simp [syncPlayerObj, pointsOk, hk]

theorem activeUpdate_isCollectible (dt : ℚ) (o : Obj) :
    isCollectible (activeUpdate dt o) = isCollectible o := by
  unfold activeUpdate
  by_cases h : o.active <;> simp [h, isCollectible_objUpdate]

theorem activeUpdate_active (dt : ℚ) (o : Obj) : (activeUpdate dt o).active = o.active := by
  unfold activeUpdate
  by_cases h : o.active <;> simp [h, active_objUpdate]

theorem activeUpdate_pointsOk (dt : ℚ) (o : Obj) :
    pointsOk (activeUpdate dt o) = pointsOk o := by
  unfold activeUpdate
  by_cases h : o.active <;> simp [h, pointsOk_objUpdate]

theorem activeEnemyUpdate_isCollectible (dt : ℚ) (o : Obj) :
    isCollectible (activeEnemyUpdate dt o) = isCollectible o := by
  unfold activeEnemyUpdate
  by_cases h : o.active && isEnemy o <;> simp [h, isCollectible_objUpdate]

theorem activeEnemyUpdate_active (dt : ℚ) (o : Obj) :
    (activeEnemyUpdate dt o).active = o.active := by
  unfold activeEnemyUpdate
  by_cases h : o.active && isEnemy o <;> simp [h, active_objUpdate]

theorem activeEnemyUpdate_pointsOk (dt : ℚ) (o : Obj) :
    pointsOk (activeEnemyUpdate dt o) = pointsOk o := by
  unfold activeEnemyUpdate
  by_cases h : o.active && isEnemy o <;> simp [h, pointsOk_objUpdate]

theorem resetCollectible_state (o : Obj) (h : isCollectible o = true) :
    (resetCollectible o).active = true ∧ collectedOf (resetCollectible o) = some false := by
  cases hk : o.kind <;> simp_all [resetCollectible, isCollectible, collectedOf, hk]

theorem resetCollectible_not_collectible (o : Obj) (h : isCollectible o = false) :
    resetCollectible o = o := by
  cases hk : o.kind <;> simp_all [resetCollectible, isCollectible, hk]

theorem resetCollectible_isCollectible (o : Obj) :
    isCollectible (resetCollectible o) = isCollectible o := by
  cases hk : o.kind <;> simp [resetCollectible, isCollectible, hk]

theorem stripMut_setHealth (h : Int) (o : Obj) : stripMut (setHealth h o) = stripMut o := by
  cases hk : o.kind <;> simp [setHealth, stripMut, hk]

theorem stripMut_resetCollectible (o : Obj) : stripMut (resetCollectible o) = stripMut o := by
  cases hk : o.kind <;> simp [resetCollectible, stripMut, hk]

/-! ### modifyAt lemmas -/

theorem modifyAt_getObj_ne (l : List Obj) (i j : Nat) (f : Obj → Obj) (h : i ≠ j) :
    getObj (modifyAt l j f) i = getObj l i := by
  induction l generalizing i j with
  | nil => cases j <;> rfl
  | cons a l ih =>
      cases j with
      | zero =>
          cases i with
          | zero => exact absurd rfl h
          | succ i => simp [modifyAt, getObj]
      | succ j =>
          cases i with
          | zero => simp [modifyAt, getObj]
          | succ i =>
              have := ih i j (fun hh => h (by rw [hh]))
              simpa [modifyAt, getObj] using this

theorem modifyAt_getObj_self (l : List Obj) (i : Nat) (f : Obj → Obj) (a : Obj)
    (h : getObj l i = some a) : getObj (modifyAt l i f) i = some (f a) := by
  induction l generalizing i with
  | nil => simp [getObj] at h
  | cons b l ih =>
      cases i with
      | zero =>
          simp [getObj] at h
          simp [modifyAt, getObj, h]
      | succ i =>
          have h' : getObj l i = some a := by simpa [getObj] using h
          simpa [modifyAt, getObj] using ih i h'

theorem all_map_pres (p : Obj → Bool) (f : Obj → Obj)
    (hf : ∀ o, p (f o) = p o) (l : List Obj) (h : l.all p = true) :
    (l.map f).all p = true := by
  induction l with
  | nil => rfl
  | cons o rest ih =>
      rw [List.all_cons, Bool.and_eq_true] at h
      obtain ⟨h1, h2⟩ := h
      rw [List.map_cons, List.all_cons, hf, h1, ih h2]
      rfl

theorem all_modifyAt_pres (p : Obj → Bool) (f : Obj → Obj)
    (hf : ∀ o, p (f o) = p o) (l : List Obj) (i : Nat) (h : l.all p = true) :
    (modifyAt l i f).all p = true := by
  induction l generalizing i with
  | nil => rfl
  | cons o rest ih =>
      rw [List.all_cons, Bool.and_eq_true] at h
      obtain ⟨h1, h2⟩ := h
      cases i with
      | zero => rw [modifyAt, List.all_cons, hf, h1, h2]; rfl
      | succ i => rw [modifyAt, List.all_cons, h1, ih i h2]; rfl

/-! ### collectPass and enemyPass lemmas -/

theorem collectPass_objects (prect : PyRect) (l : List Obj) :
    ∀ sc, (collectPass prect l sc).1 = l.map (collectStep prect) := by
  induction l with
  | nil => intro sc; rfl
  | cons o rest ih =>
      intro sc
      simp only [collectPass, collectStep, List.map_cons]
      by_cases h : isCollectible o && o.active && colliderect prect (rectOf o)
      · simp [h, ih]
      · simp [h, ih]

theorem collectPass_score_mono (prect : PyRect) (l : List Obj) :
    ∀ sc : Int, l.all pointsOk = true → sc ≤ (collectPass prect l sc).2 := by
  induction l with
  | nil => intro sc _; exact le_refl _
  | cons o rest ih =>
      intro sc h
      rw [List.all_cons, Bool.and_eq_true] at h
      obtain ⟨h1, h2⟩ := h
      simp only [collectPass]
      by_cases hc : isCollectible o && o.active && colliderect prect (rectOf o)
      · rw [if_pos hc]
        have hm := ih (sc + (collect o).1) h2
        have h0 := collect_fst_nonneg o h1
        calc sc ≤ sc + (collect o).1 := by omega
          _ ≤ _ := hm
      · rw [if_neg hc]
        exact ih sc h2

/-! ### Engine phase lemmas -/

theorem stepPhys_objects (phys : Body → ℚ → Body) (dt : ℚ) (s : Engine) :
    (stepPhys phys dt s).objects = s.objects := by
  unfold stepPhys; cases s.body <;> rfl

theorem stepPhys_player_idx (phys : Body → ℚ → Body) (dt : ℚ) (s : Engine) :
    (stepPhys phys dt s).player_idx = s.player_idx := by
  unfold stepPhys; cases s.body <;> rfl

theorem stepPhys_game_state (phys : Body → ℚ → Body) (dt : ℚ) (s : Engine) :
    (stepPhys phys dt s).game_state = s.game_state := by
  unfold stepPhys; cases s.body <;> rfl

theorem syncPlayer_player_idx (s : Engine) : (syncPlayer s).player_idx = s.player_idx := by
  unfold syncPlayer; split <;> rfl

theorem syncPlayer_game_state (s : Engine) : (syncPlayer s).game_state = s.game_state := by
  unfold syncPlayer; split <;> rfl

theorem syncPlayer_getObj_ne (s : Engine) (i : Nat) (hp : s.player_idx ≠ some i) :
    getObj (syncPlayer s).objects i = getObj s.objects i := by
  unfold syncPlayer
  split
  · next pi b hpi hb =>
      have hne : i ≠ pi := fun hh => hp (by rw [hpi, hh])
      exact modifyAt_getObj_ne _ _ _ _ hne
  · rfl

theorem syncPlayer_all (p : Obj → Bool) (hf : ∀ b o, p (syncPlayerObj b o) = p o)
    (s : Engine) (h : s.objects.all p = true) : (syncPlayer s).objects.all p = true := by
  unfold syncPlayer
  split
  · next pi b hpi hb => exact all_modifyAt_pres p _ (hf b) _ _ h
  · exact h

theorem check_collisions_win (s : Engine) :
    (check_collisions s).game_state.win = s.game_state.win := by
  unfold check_collisions
  split
  · rfl
  · split <;> rfl

theorem check_collisions_getObj_ne (s : Engine) (i : Nat) (hp : s.player_idx ≠ some i) :
    getObj (check_collisions s).objects i = getObj s.objects i ∨
    ∃ prect, getObj (check_collisions s).objects i
      = (getObj s.objects i).map (collectStep prect) := by
  unfold check_collisions
  split
  · exact Or.inl rfl
  · next pi hpi =>
      split
      · exact Or.inl rfl
      · next p hgo =>
          refine Or.inr ⟨rectOf p, ?_⟩
          have hne : i ≠ pi := fun hh => hp (by rw [hpi, hh])
          show getObj (modifyAt _ pi _) i = _
          rw [modifyAt_getObj_ne _ _ _ _ hne, collectPass_objects]
          simp [getObj]

theorem check_collisions_all (p : Obj → Bool)
    (hset : ∀ h o, p (setHealth h o) = p o)
    (hcs : ∀ prect o, p (collectStep prect o) = p o)
    (s : Engine) (h : s.objects.all p = true) :
    (check_collisions s).objects.all p = true := by
  unfold check_collisions
  split
  · exact h
  · split
    · exact h
    · next q hgo =>
        apply all_modifyAt_pres p _ (hset _)
        rw [collectPass_objects]
        exact all_map_pres p _ (hcs _) _ h

theorem check_collisions_score_mono (s : Engine) (h : s.objects.all pointsOk = true) :
    s.game_state.score ≤ (check_collisions s).game_state.score := by
  unfold check_collisions
  split
  · exact le_refl _
  · split
    · exact le_refl _
    · next q hgo => exact collectPass_score_mono _ _ _ h

theorem update_camera_objects (s : Engine) : (update_camera s).objects = s.objects := by
  unfold update_camera
  split
  · rfl
  · split <;> rfl

theorem update_camera_game_state (s : Engine) :
    (update_camera s).game_state = s.game_state := by
  unfold update_camera
  split
  · rfl
  · split <;> rfl

theorem check_game_conditions_objects (s : Engine) :
    (check_game_conditions s).objects = s.objects := by
  unfold check_game_conditions
  split <;> dsimp only <;> split
  · rfl
  · split
    · rfl
    · split <;> rfl
  · rfl
  · split
    · rfl
    · split <;> rfl

theorem check_game_conditions_win (s : Engine) :
    (check_game_conditions s).game_state.win = (s.game_state.win || winCond s.objects) := by
  unfold check_game_conditions
  split
  · next hw =>
      rw [hw, Bool.or_true]
      dsimp only
      split
      · rfl
      · split
        · rfl
        · split <;> rfl
  · next hw =>
      have hw' : winCond s.objects = false := by simpa using hw
      rw [hw', Bool.or_false]
      dsimp only
      split
      · rfl
      · split
        · rfl
        · split <;> rfl

theorem check_game_conditions_score (s : Engine) :
    (check_game_conditions s).game_state.score = s.game_state.score := by
  unfold check_game_conditions
  split <;> dsimp only <;> split
  · rfl
  · split
    · rfl
    · split <;> rfl
  · rfl
  · split
    · rfl
    · split <;> rfl

/-! ### Win-condition preservation -/

theorem collectiblesOf_map_length (f : Obj → Obj)
    (h1 : ∀ o, isCollectible (f o) = isCollectible o) (l : List Obj) :
    (collectiblesOf (l.map f)).length = (collectiblesOf l).length := by
  induction l with
  | nil => rfl
  | cons o rest ih =>
      simp only [collectiblesOf, List.map_cons, List.filter_cons] at *
      by_cases hc : isCollectible o = true
      · simp [h1, hc, ih]
      · simp [h1, hc, ih]

theorem allInactive_iff (l : List Obj) :
    ((collectiblesOf l).all (fun c => ! c.active)) = true ↔
      ∀ o ∈ l, isCollectible o = true → o.active = false := by
  constructor
  · intro h o ho hc
    rw [List.all_eq_true] at h
    have := h o (List.mem_filter.mpr ⟨ho, hc⟩)
    simpa using this
  · intro h
    rw [List.all_eq_true]
    intro o ho
    obtain ⟨hm, hc⟩ := List.mem_filter.mp ho
    simpa using h o hm hc

theorem mem_modifyAt {α : Type} (l : List α) (i : Nat) (f : α → α) (o' : α)
    (h : o' ∈ modifyAt l i f) : o' ∈ l ∨ ∃ o, o ∈ l ∧ o' = f o := by
  induction l generalizing i with
  | nil => cases i <;> simp [modifyAt] at h
  | cons a l ih =>
      cases i with
      | zero =>
          rw [modifyAt] at h
          rcases List.mem_cons.mp h with rfl | hm
          · exact Or.inr ⟨a, List.mem_cons_self _ _, rfl⟩
          · exact Or.inl (List.mem_cons_of_mem _ hm)
      | succ i =>
          rw [modifyAt] at h
          rcases List.mem_cons.mp h with rfl | hm
          · exact Or.inl (List.mem_cons_self _ _)
          · rcases ih i hm with hm' | ⟨o, ho, rfl⟩
            · exact Or.inl (List.mem_cons_of_mem _ hm')
            · exact Or.inr ⟨o, List.mem_cons_of_mem _ ho, rfl⟩

theorem collectiblesOf_map_inactive (f : Obj → Obj)
    (h1 : ∀ o, isCollectible (f o) = isCollectible o)
    (h2 : ∀ o, o.active = false → (f o).active = false) (l : List Obj)
    (h : (collectiblesOf l).all (fun c => ! c.active) = true) :
    (collectiblesOf (l.map f)).all (fun c => ! c.active) = true := by
  rw [allInactive_iff] at h ⊢
  intro o' ho' hc'
  obtain ⟨o, ho, rfl⟩ := List.mem_map.mp ho'
  have hco : isCollectible o = true := by rw [← h1]; exact hc'
  exact h2 o (h o ho hco)

theorem winCond_map_pres (f : Obj → Obj)
    (h1 : ∀ o, isCollectible (f o) = isCollectible o)
    (h2 : ∀ o, o.active = false → (f o).active = false) (l : List Obj)
    (h : winCond l = true) : winCond (l.map f) = true := by
  unfold winCond at *
  rw [Bool.and_eq_true] at *
  obtain ⟨hall, hlen⟩ := h
  refine ⟨collectiblesOf_map_inactive f h1 h2 l hall, ?_⟩
  rw [collectiblesOf_map_length f h1 l]
  exact hlen

theorem collectiblesOf_modifyAt_length (f : Obj → Obj)
    (h1 : ∀ o, isCollectible (f o) = isCollectible o) (l : List Obj) :
    ∀ i, (collectiblesOf (modifyAt l i f)).length = (collectiblesOf l).length := by
  induction l with
  | nil => intro i; cases i <;> rfl
  | cons o rest ih =>
      intro i
      cases i with
      | zero =>
          show (collectiblesOf (f o :: rest)).length = (collectiblesOf (o :: rest)).length
          simp only [collectiblesOf, List.filter_cons, h1]
          by_cases hc : isCollectible o = true
          · simp [hc]
          · simp [hc]
      | succ i =>
          show (collectiblesOf (o :: modifyAt rest i f)).length
              = (collectiblesOf (o :: rest)).length
          simp only [collectiblesOf, List.filter_cons]
          by_cases hc : isCollectible o = true
          · simpa [hc, collectiblesOf] using ih i
          · simpa [hc, collectiblesOf] using ih i

theorem collectiblesOf_modifyAt_inactive (f : Obj → Obj)
    (h1 : ∀ o, isCollectible (f o) = isCollectible o)
    (h2 : ∀ o, o.active = false → (f o).active = false) (l : List Obj) :
    ∀ i, (collectiblesOf l).all (fun c => ! c.active) = true →
      (collectiblesOf (modifyAt l i f)).all (fun c => ! c.active) = true := by
  intro i h
  rw [allInactive_iff] at h ⊢
  intro o' ho' hc'
  rcases mem_modifyAt _ _ _ _ ho' with hm | ⟨o, ho, rfl⟩
  · exact h o' hm hc'
  · have hco : isCollectible o = true := by rw [← h1]; exact hc'
    exact h2 o (h o ho hco)

theorem winCond_modifyAt_pres (f : Obj → Obj)
    (h1 : ∀ o, isCollectible (f o) = isCollectible o)
    (h2 : ∀ o, o.active = false → (f o).active = false) (l : List Obj) (i : Nat)
    (h : winCond l = true) : winCond (modifyAt l i f) = true := by
  unfold winCond at *
  rw [Bool.and_eq_true] at *
  obtain ⟨hall, hlen⟩ := h
  refine ⟨collectiblesOf_modifyAt_inactive f h1 h2 l i hall, ?_⟩
  rw [collectiblesOf_modifyAt_length f h1 l i]
  exact hlen

/-! ### Claim theorems: asset pipeline -/

/-- C1: one invocation of `generate_game_assets` issues at most
`MAX_DALLE_REQUESTS_PER_GAME` (= 5) external generation calls, and on
return every entity of the description is bound to exactly one image
(cached, freshly generated, or fallback) — no entity is left imageless. -/
theorem generate_game_assets_budget_and_coverage
    (w : DalleWorld) (st : AMState) (gd : GameData) :
    (generate_game_assets w st gd).2.attempts ≤ MAX_DALLE_REQUESTS_PER_GAME ∧
    (gd.entities.all fun e =>
      (dictGet (generate_game_assets w st gd).1 e.name).isSome) = true := by
  constructor
  · show (fallbackLoop _ _ _).2.attempts ≤ _
    rw [fallbackLoop_attempts]
    have h1 := genLoop_attempts_le w (identify_priority_assets gd)
      { st with dalle_request_count := 0, attempts := 0 } []
    have h0 : ({ st with dalle_request_count := 0, attempts := 0 } : AMState).attempts = 0 :=
      rfl
    have h2 : (identify_priority_assets gd).length ≤ MAX_DALLE_REQUESTS_PER_GAME := by
      unfold identify_priority_assets
      exact List.length_take_le _ _
    omega
  · rw [List.all_eq_true]
    intro e he
    show (dictGet (fallbackLoop _ (get_remaining_entities gd _) _).1 e.name).isSome = true
    by_cases hb : (dictGet (genLoop w { st with dalle_request_count := 0, attempts := 0 }
        (identify_priority_assets gd) []).1 e.name).isSome = true
    · exact fallbackLoop_binds _ _ _ _ (Or.inr hb)
    · apply fallbackLoop_binds _ _ _ _ (Or.inl ?_)
      unfold get_remaining_entities
      refine List.mem_filter.mpr ⟨he, ?_⟩
      cases hopt : dictGet (genLoop w { st with dalle_request_count := 0, attempts := 0 }
          (identify_priority_assets gd) []).1 e.name with
      | none => rfl
      | some v => exact absurd (by rw [hopt]; rfl) hb

set_option maxRecDepth 20000 in
/-- C2: the pipeline increments `dalle_request_count` even on a pure cache
hit — a run whose only candidate is served from the cache issues 0
external calls yet reports a count of 1, contradicting the counter's own
meaning ("DALL-E requests used") and the claim. -/
theorem cache_hit_consumes_budget :
    (generate_game_assets wOk stHit gdHero).2.attempts = 0 ∧
    (generate_game_assets wOk stHit gdHero).2.dalle_request_count = 1 := by
  decide

/-- C4 counterexample: for the worked example (one player, one enemy
`enemy_1`, one level with 2 platforms and 1 collectible, no background
field), the ranked list does contain a background candidate — it is added
whenever at least one level exists — and the all-success external-call
count is not 4. -/
theorem example_ranking_background_cex :
    ((identify_priority_assets gdExample).filter (fun a => a.type == "background")).length
      = 1 ∧
    (generate_game_assets wOk stEmpty gdExample).2.dalle_request_count ≠ 4 := by
  decide

/-- C4 amended: the ranked list of the worked example is
[player, background, enemy_1, collectible, platform] (a background
candidate is ranked because a level exists, irrespective of any background
field); with budget 5 and every call succeeding the reported count is 5,
and with every call failing the count is 0 and all entities are bound to
fallback art. -/
theorem example_ranking_counts :
    (identify_priority_assets gdExample).map AssetInfo.name
      = ["hero", "background", "enemy_1", "collectible", "platform"] ∧
    (generate_game_assets wOk stEmpty gdExample).2.dalle_request_count = 5 ∧
    (generate_game_assets wFail stEmpty gdExample).2.dalle_request_count = 0 ∧
    (gdExample.entities.all fun e =>
      (dictGet (generate_game_assets wFail stEmpty gdExample).1 e.name).isSome) = true := by
  decide

/-- C8 counterexample: two candidates agreeing on prompt and category but
with different target sizes (24×24 vs 800×600) receive the same cache key,
refuting the claim that the key hashes the candidate's target size. -/
theorem cache_key_same_despite_size_cex :
    candSmall.prompt = candLarge.prompt ∧ candSmall.type = candLarge.type ∧
    candSmall.size ≠ candLarge.size ∧
    cacheKeyOfAsset candSmall = cacheKeyOfAsset candLarge := by
  decide

/-- C8 amended: the cache key is the hash of the prompt, the category, and
the global `SPRITE_SIZE` constant — the candidate's own target size never
enters, so candidates agreeing on prompt and category share a key
regardless of their sizes. -/
theorem cache_key_ignores_target_size (a b : AssetInfo)
    (hp : a.prompt = b.prompt) (ht : a.type = b.type) :
    cacheKeyOfAsset a = cacheKeyOfAsset b ∧
    cacheKeyOfAsset a = md5Hex (a.prompt ++ "_" ++ a.type ++ "_" ++ toString SPRITE_SIZE) := by
  constructor
  · unfold cacheKeyOfAsset get_cache_key
    rw [hp, ht]
  · rfl

/-- C8 witness: the amended key property evaluated at the two concrete
candidates of the counterexample. -/
theorem cache_key_ignores_target_size_witness :
    cacheKeyOfAsset candSmall = cacheKeyOfAsset candLarge ∧
    cacheKeyOfAsset candSmall
      = md5Hex (candSmall.prompt ++ "_" ++ candSmall.type ++ "_" ++ toString SPRITE_SIZE) :=
  cache_key_ignores_target_size candSmall candLarge rfl rfl

/-- C9 counterexample: with a successful external call whose cache-index
write fails, the single entity of `gdHero` ends bound to the *fallback*
path, not the freshly generated artifact — the generated image is
discarded for the session, refuting the claim that it stays bound. -/
theorem persist_failure_falls_back_cex :
    (generate_game_assets wIndexFail stEmpty gdHero).2.attempts = 1 ∧
    dictGet (generate_game_assets wIndexFail stEmpty gdHero).1 "hero"
      = some (ASSET_CACHE_DIR ++ "/fallback_hero_#4A90E2.png") ∧
    ASSET_CACHE_DIR ++ "/fallback_hero_#4A90E2.png"
      ≠ ASSET_CACHE_DIR ++ "/" ++ cacheKeyOfAsset heroCand ++ ".png" := by
  decide

/-- C9 amended: a cache-index write failure after a successful generation
does not crash the pipeline (the exception is caught) and the artifact
file and in-memory index entry survive, but `_generate_dalle_asset`
reports failure (`None`), so the asset is not bound to the generated image
and degrades to fallback art for the session. -/
theorem persist_failure_keeps_artifact_not_binding
    (w : DalleWorld) (st : AMState) (a : AssetInfo)
    (hc : dictGet st.asset_cache (cacheKeyOfAsset a) = none)
    (h1 : w.callOk st.attempts = true)
    (h2 : w.imageSaveOk st.attempts = true)
    (h3 : w.indexSaveOk st.attempts = false) :
    (generate_dalle_asset w st a).1 = none ∧
    ((generate_dalle_asset w st a).2.files.contains
      (ASSET_CACHE_DIR ++ "/" ++ cacheKeyOfAsset a ++ ".png")) = true ∧
    dictGet (generate_dalle_asset w st a).2.asset_cache (cacheKeyOfAsset a)
      = some (ASSET_CACHE_DIR ++ "/" ++ cacheKeyOfAsset a ++ ".png") := by
  have hred : generate_dalle_asset w st a = dalleAttempt w st a := by
    unfold generate_dalle_asset
    dsimp only
    split
    · next v hv => rw [hc] at hv; cases hv
    · rfl
  rw [hred]
  unfold dalleAttempt
  rw [if_pos h1, if_pos h2, if_neg (by rw [h3]; exact Bool.false_ne_true)]
  refine ⟨rfl, contains_touchFile _ _, ?_⟩
  rw [dictGet_dictPut]
  simp

/-- C9 witness: the amended persist-failure behavior evaluated at the
concrete player candidate with a fresh manager state. -/
theorem persist_failure_keeps_artifact_not_binding_witness :
    (generate_dalle_asset wIndexFail stEmpty heroCand).1 = none ∧
    ((generate_dalle_asset wIndexFail stEmpty heroCand).2.files.contains
      (ASSET_CACHE_DIR ++ "/" ++ cacheKeyOfAsset heroCand ++ ".png")) = true ∧
    dictGet (generate_dalle_asset wIndexFail stEmpty heroCand).2.asset_cache
        (cacheKeyOfAsset heroCand)
      = some (ASSET_CACHE_DIR ++ "/" ++ cacheKeyOfAsset heroCand ++ ".png") :=
  persist_failure_keeps_artifact_not_binding wIndexFail stEmpty heroCand rfl rfl rfl rfl

/-! ### Further engine helper lemmas -/

theorem getObj_map (f : Obj → Obj) (l : List Obj) (i : Nat) :
    getObj (l.map f) i = (getObj l i).map f := by
  simp [getObj]

theorem stepTime_objects (dt : ℚ) (s : Engine) : (stepTime dt s).objects = s.objects := rfl

theorem stepTime_player_idx (dt : ℚ) (s : Engine) :
    (stepTime dt s).player_idx = s.player_idx := rfl

theorem stepTime_score (dt : ℚ) (s : Engine) :
    (stepTime dt s).game_state.score = s.game_state.score := rfl

theorem stepTime_win (dt : ℚ) (s : Engine) :
    (stepTime dt s).game_state.win = s.game_state.win := rfl

theorem stepAllObjects_objects (dt : ℚ) (s : Engine) :
    (stepAllObjects dt s).objects = s.objects.map (activeUpdate dt) := rfl

theorem stepAllObjects_player_idx (dt : ℚ) (s : Engine) :
    (stepAllObjects dt s).player_idx = s.player_idx := rfl

theorem stepAllObjects_game_state (dt : ℚ) (s : Engine) :
    (stepAllObjects dt s).game_state = s.game_state := rfl

theorem stepEnemies_objects (dt : ℚ) (s : Engine) :
    (stepEnemies dt s).objects = s.objects.map (activeEnemyUpdate dt) := rfl

theorem stepEnemies_player_idx (dt : ℚ) (s : Engine) :
    (stepEnemies dt s).player_idx = s.player_idx := rfl

theorem stepEnemies_game_state (dt : ℚ) (s : Engine) :
    (stepEnemies dt s).game_state = s.game_state := rfl

/-- The player index is unchanged through the five pre-collision phases. -/
theorem prePhases_player_idx (phys : Body → ℚ → Body) (dt : ℚ) (s : Engine) :
    (stepEnemies dt (stepAllObjects dt (syncPlayer
      (stepPhys phys dt (stepTime dt s))))).player_idx = s.player_idx := by
  rw [stepEnemies_player_idx, stepAllObjects_player_idx, syncPlayer_player_idx,
    stepPhys_player_idx, stepTime_player_idx]

/-- The game state is unchanged (except time) through the pre-collision
phases; in particular score and win are preserved. -/
theorem prePhases_game_state (phys : Body → ℚ → Body) (dt : ℚ) (s : Engine) :
    (stepEnemies dt (stepAllObjects dt (syncPlayer
      (stepPhys phys dt (stepTime dt s))))).game_state = (stepTime dt s).game_state := by
  rw [stepEnemies_game_state, stepAllObjects_game_state, syncPlayer_game_state,
    stepPhys_game_state]

theorem syncPlayer_winCond (s : Engine) (h : winCond s.objects = true) :
    winCond (syncPlayer s).objects = true := by
  unfold syncPlayer
  split
  · next pi b hpi hb =>
      exact winCond_modifyAt_pres _ (syncPlayerObj_isCollectible b)
        (fun o ho => by rw [syncPlayerObj_active]; exact ho) _ _ h
  · exact h

theorem syncPlayer_coll_length (s : Engine) :
    (collectiblesOf (syncPlayer s).objects).length = (collectiblesOf s.objects).length := by
  unfold syncPlayer
  split
  · next pi b hpi hb =>
      exact collectiblesOf_modifyAt_length _ (syncPlayerObj_isCollectible b) _ _
  · rfl

theorem check_collisions_winCond (s : Engine) (h : winCond s.objects = true) :
    winCond (check_collisions s).objects = true := by
  unfold check_collisions
  split
  · exact h
  · split
    · exact h
    · next q hgo =>
        apply winCond_modifyAt_pres _ (setHealth_isCollectible _)
          (fun o ho => by rw [setHealth_active]; exact ho)
        rw [collectPass_objects]
        exact winCond_map_pres _ (collectStep_isCollectible _)
          (fun o ho => by rw [collectStep_inactive _ _ ho]; exact ho) _ h

theorem check_collisions_coll_length (s : Engine) :
    (collectiblesOf (check_collisions s).objects).length
      = (collectiblesOf s.objects).length := by
  unfold check_collisions
  split
  · rfl
  · split
    · rfl
    · next q hgo =>
        rw [collectiblesOf_modifyAt_length _ (setHealth_isCollectible _) _ _,
          collectPass_objects,
          collectiblesOf_map_length _ (collectStep_isCollectible _) _]

theorem map_modifyAt_invariant {γ : Type} (g : Obj → γ) (f : Obj → Obj)
    (hf : ∀ o, g (f o) = g o) (l : List Obj) :
    ∀ i, (modifyAt l i f).map g = l.map g := by
  induction l with
  | nil => intro i; cases i <;> rfl
  | cons o rest ih =>
      intro i
      cases i with
      | zero => simp [modifyAt, hf]
      | succ i => simp [modifyAt, ih i]

theorem healthOf_reset_setHealth (o : Obj) (h : isPlayerK o = true) :
    healthOf (resetCollectible (setHealth 100 o)) = some 100 := by
  cases hk : o.kind <;> simp_all [setHealth, resetCollectible, healthOf, isPlayerK, hk]

/-! ### Entity-creation lemmas -/

theorem applyColorLast_names (l : List Obj) (c : Int × Int × Int) :
    (applyColorLast l c).map Obj.name = l.map Obj.name := by
  induction l with
  | nil => rfl
  | cons o rest ih =>
      cases rest with
      | nil => by_cases h : (! o.sprite) = true <;> simp [applyColorLast, h]
      | cons o2 rest2 =>
          rw [applyColorLast, List.map_cons, ih]
          simp

theorem applyColorLast_append (objs : List Obj) (o : Obj) (c : Int × Int × Int) :
    applyColorLast (objs ++ [o]) c
      = objs ++ [if ! o.sprite then { o with color := c } else o] := by
  induction objs with
  | nil => rfl
  | cons a rest ih =>
      rw [List.cons_append]
      cases hr : rest ++ [o] with
      | nil => exact absurd hr (by simp)
      | cons b t =>
          rw [applyColorLast, ← hr, ih, List.cons_append]

theorem create_entities_go (assets : List String) (es : List EntityD) :
    ∀ objs : List Obj, ((es.foldl (create_entity_step assets) objs).map Obj.name)
      = objs.map Obj.name ++ (es.filter isSimEntity).map EntityD.name := by
  induction es with
  | nil => intro objs; simp
  | cons e rest ih =>
      intro objs
      rw [List.foldl_cons, ih, List.filter_cons]
      by_cases h1 : (e.type == "player") = true
      · have hs : isSimEntity e = true := by simp [isSimEntity, h1]
        rw [hs, if_pos rfl]
        unfold create_entity_step
        rw [if_pos h1]
        rw [applyColorLast_names, List.map_append]
        simp [mkPlayerObj]
      · by_cases h2 : (strContains (strLower e.type) "enemy"
            || strContains (strLower e.name) "enemy") = true
        · have hs : isSimEntity e = true := by
            unfold isSimEntity
            rw [Bool.or_assoc, h2, Bool.or_true]
          rw [hs, if_pos rfl]
          unfold create_entity_step
          rw [if_neg h1, if_pos h2]
          rw [applyColorLast_names, List.map_append]
          simp [mkEnemyObj]
        · have hs : isSimEntity e = false := by
            unfold isSimEntity
            rw [Bool.or_assoc]
            simp only [Bool.or_eq_false_iff]
            constructor
            · simpa using h1
            · simpa using h2
          rw [hs, if_neg (by simp)]
          unfold create_entity_step
          rw [if_neg h1, if_neg h2, applyColorLast_names]

/-! ### Claim theorems: game engine -/

unseal Rat.add Rat.mul Rat.sub Rat.inv in
/-- C3 counterexample: for the concrete engine holding one active patrol
enemy at its spawn (speed 50, direction 1), one `update` with dt = 1 moves
it to x = 100, not to spawn + post-patrol-velocity·dt = 50: the enemy is
integrated twice per update call (once in the all-objects pass, once in
the enemies pass). -/
theorem enemy_double_update_cex :
    (getObj (update physDrop 1 engEnemy).objects 0).map Obj.x = some 100 ∧
    ((100 : ℚ) ≠ enemyDemo.x + 50 * 1) := by
  decide

/-- C3 amended: in one `update(dt)` call, an active non-enemy object at an
index other than the player's advances by exactly velocity·dt, but an
active Enemy is updated twice — once by the all-objects loop (dynamic
dispatch) and once more by the enemies loop — so it ends as
`objUpdate dt (objUpdate dt o)`: patrol AI and integration run twice. -/
theorem update_object_kinematics (phys : Body → ℚ → Body) (dt : ℚ) (s : Engine)
    (i : Nat) (o : Obj) (hg : getObj s.objects i = some o) (ha : o.active = true)
    (hp : s.player_idx ≠ some i) :
    (isEnemy o = false →
      (getObj (update phys dt s).objects i).map (fun r => (r.x, r.y))
        = some (o.x + o.velocity_x * dt, o.y + o.velocity_y * dt)) ∧
    (isEnemy o = true →
      getObj (update phys dt s).objects i = some (objUpdate dt (objUpdate dt o))) := by
  set pre := stepEnemies dt (stepAllObjects dt (syncPlayer
    (stepPhys phys dt (stepTime dt s)))) with hpre
  have hp2 : (stepPhys phys dt (stepTime dt s)).player_idx ≠ some i := by
    rw [stepPhys_player_idx, stepTime_player_idx]; exact hp
  have hg3 : getObj (syncPlayer (stepPhys phys dt (stepTime dt s))).objects i = some o := by
    rw [syncPlayer_getObj_ne _ _ hp2, stepPhys_objects, stepTime_objects]
    exact hg
  have hau : activeUpdate dt o = objUpdate dt o := by rw [activeUpdate, if_pos ha]
  have hg5 : getObj pre.objects i = some (activeEnemyUpdate dt (objUpdate dt o)) := by
    rw [hpre, stepEnemies_objects, getObj_map, stepAllObjects_objects, getObj_map, hg3]
    rw [Option.map_some', Option.map_some', hau]
  have hp5 : pre.player_idx ≠ some i := by
    rw [hpre, prePhases_player_idx]; exact hp
  have hobj : (update phys dt s).objects = (check_collisions pre).objects := by
    unfold update
    rw [check_game_conditions_objects, update_camera_objects, ← hpre]
  constructor
  · intro he
    have haeu : activeEnemyUpdate dt (objUpdate dt o) = objUpdate dt o := by
      rw [activeEnemyUpdate, isEnemy_objUpdate, he, Bool.and_false]
      exact if_neg (by simp)
    have hgou : objUpdate dt o = gameObjectUpdate dt o := objUpdate_of_not_enemy dt o he
    rcases check_collisions_getObj_ne pre i hp5 with hcc | ⟨prect, hcc⟩
    · rw [hobj, hcc, hg5, haeu, hgou]
      rfl
    · rw [hobj, hcc, hg5, haeu, hgou, Option.map_some', Option.map_some',
        (collectStep_pos prect (gameObjectUpdate dt o)).1,
        (collectStep_pos prect (gameObjectUpdate dt o)).2]
      rfl
  · intro he
    have haeu : activeEnemyUpdate dt (objUpdate dt o) = objUpdate dt (objUpdate dt o) := by
      rw [activeEnemyUpdate, isEnemy_objUpdate, he, active_objUpdate, ha]
      rfl
    rcases check_collisions_getObj_ne pre i hp5 with hcc | ⟨prect, hcc⟩
    · rw [hobj, hcc, hg5, haeu]
    · have hX : isEnemy (objUpdate dt (objUpdate dt o)) = true := by
        rw [isEnemy_objUpdate, isEnemy_objUpdate]; exact he
      rw [hobj, hcc, hg5, haeu, Option.map_some', collectStep_enemy _ _ hX]

/-- C3 witness: the amended double-update behavior evaluated on the
concrete enemy engine. -/
theorem update_object_kinematics_witness :
    getObj (update physDrop 1 engEnemy).objects 0
      = some (objUpdate 1 (objUpdate 1 enemyDemo)) :=
  (update_object_kinematics physDrop 1 engEnemy 0 enemyDemo rfl rfl (by decide)).2 rfl

unseal Rat.add Rat.mul Rat.sub Rat.inv in
/-- C5 counterexample: with a collectible declaring −5 points overlapping
the player, one update drops the score from 0 to −5 — the score is not
monotonically non-decreasing for every session. -/
theorem score_decreases_cex :
    (update physDrop 1 engNeg).game_state.score = -5 ∧
    (update physDrop 1 engNeg).game_state.score < engNeg.game_state.score := by
  decide

/-- C5 amended: collecting is idempotent (a collected collectible is
inactive and a second collect awards 0), and provided every collectible's
declared point value is non-negative, one update never decreases the score
and preserves that property (hence score is monotone across sequences of
updates). -/
theorem score_monotone_of_nonneg_points (phys : Body → ℚ → Body) (dt : ℚ) (s : Engine)
    (h : s.objects.all pointsOk = true) :
    s.game_state.score ≤ (update phys dt s).game_state.score ∧
    (update phys dt s).objects.all pointsOk = true ∧
    (∀ (o : Obj) (pts : Int), o.kind = .collectibleObj pts false →
      (collect o).2.active = false ∧ (collect (collect o).2).1 = 0) := by
  set pre := stepEnemies dt (stepAllObjects dt (syncPlayer
    (stepPhys phys dt (stepTime dt s)))) with hpre
  have hall : pre.objects.all pointsOk = true := by
    rw [hpre, stepEnemies_objects, stepAllObjects_objects]
    apply all_map_pres _ _ (activeEnemyUpdate_pointsOk dt)
    apply all_map_pres _ _ (activeUpdate_pointsOk dt)
    apply syncPlayer_all _ syncPlayerObj_pointsOk
    rw [stepPhys_objects, stepTime_objects]
    exact h
  refine ⟨?_, ?_, ?_⟩
  · have h1 : (update phys dt s).game_state.score
        = (check_collisions pre).game_state.score := by
      unfold update
      rw [check_game_conditions_score, update_camera_game_state, ← hpre]
    have h2 := check_collisions_score_mono pre hall
    have h3 : pre.game_state.score = s.game_state.score := by
      rw [hpre, prePhases_game_state, stepTime_score]
    omega
  · have h1 : (update phys dt s).objects = (check_collisions pre).objects := by
      unfold update
      rw [check_game_conditions_objects, update_camera_objects, ← hpre]
    rw [h1]
    exact check_collisions_all _ setHealth_pointsOk collectStep_pointsOk pre hall
  · intro o pts hk
    constructor <;> simp [collect, hk]

/-- C5 witness: the amended monotonicity evaluated on a session whose
collectible is worth +10 points, overlapping the player. -/
theorem score_monotone_of_nonneg_points_witness :
    engPos.game_state.score ≤ (update physDrop 1 engPos).game_state.score ∧
    (update physDrop 1 engPos).objects.all pointsOk = true :=
  ⟨(score_monotone_of_nonneg_points physDrop 1 engPos (by decide)).1,
   (score_monotone_of_nonneg_points physDrop 1 engPos (by decide)).2.1⟩

/-- C6: over states satisfying the session invariant (the win flag, when
already set, was set because all collectibles were collected), after any
update step the win flag is true iff the collectibles list is non-empty
and every collectible is inactive; the number of collectibles is preserved
by an update, so with zero collectibles the flag can never become true
regardless of elapsed time. -/
theorem win_iff_collectibles (phys : Body → ℚ → Body) (dt : ℚ) (s : Engine)
    (hinv : s.game_state.win = true → winCond s.objects = true) :
    (update phys dt s).game_state.win = winCond (update phys dt s).objects ∧
    (collectiblesOf (update phys dt s).objects).length
      = (collectiblesOf s.objects).length := by
  set pre := stepEnemies dt (stepAllObjects dt (syncPlayer
    (stepPhys phys dt (stepTime dt s)))) with hpre
  have hobj : (update phys dt s).objects = (check_collisions pre).objects := by
    unfold update
    rw [check_game_conditions_objects, update_camera_objects, ← hpre]
  have hprew : pre.game_state.win = s.game_state.win := by
    rw [hpre, prePhases_game_state, stepTime_win]
  have hwin : (update phys dt s).game_state.win
      = (s.game_state.win || winCond (check_collisions pre).objects) := by
    unfold update
    rw [check_game_conditions_win, update_camera_game_state, update_camera_objects,
      ← hpre, check_collisions_win, hprew]
  have hlen : (collectiblesOf (check_collisions pre).objects).length
      = (collectiblesOf s.objects).length := by
    rw [check_collisions_coll_length, hpre, stepEnemies_objects, stepAllObjects_objects,
      collectiblesOf_map_length _ (activeEnemyUpdate_isCollectible dt),
      collectiblesOf_map_length _ (activeUpdate_isCollectible dt),
      syncPlayer_coll_length, stepPhys_objects, stepTime_objects]
  refine ⟨?_, by rw [hobj]; exact hlen⟩
  rw [hwin, hobj]
  cases hw : s.game_state.win with
  | false => rw [Bool.false_or]
  | true =>
      rw [Bool.true_or]
      have h0 : winCond s.objects = true := hinv hw
      have h5 : winCond pre.objects = true := by
        rw [hpre, stepEnemies_objects, stepAllObjects_objects]
        apply winCond_map_pres _ (activeEnemyUpdate_isCollectible dt)
          (fun o ho => by rw [activeEnemyUpdate_active]; exact ho)
        apply winCond_map_pres _ (activeUpdate_isCollectible dt)
          (fun o ho => by rw [activeUpdate_active]; exact ho)
        apply syncPlayer_winCond
        rw [stepPhys_objects, stepTime_objects]
        exact h0
      exact (check_collisions_winCond pre h5).symm

/-- C6 witness: the win-flag characterization evaluated on the concrete
overlap session (whose single collectible is collected by the update,
turning the flag on). -/
theorem win_iff_collectibles_witness :
    (update physDrop 1 engNeg).game_state.win
      = winCond (update physDrop 1 engNeg).objects ∧
    (collectiblesOf (update physDrop 1 engNeg).objects).length
      = (collectiblesOf engNeg.objects).length :=
  win_iff_collectibles physDrop 1 engNeg (by decide)

/-- C7: reset restores the default GameState (score 0, flags cleared,
health 100), moves the player's physics body to the fixed spawn point
(100, 400), restores the player object's health to 100, reactivates and
un-collects every collectible, and leaves the description, the loaded
assets, the background, and every object's description-derived fields
(name, position, size, color, sprite) unchanged. -/
theorem reset_game_spec (s : Engine) :
    (reset_game s).game_state = {} ∧
    (∀ pi, s.player_idx = some pi → ∀ b, s.body = some b →
      (reset_game s).body = some { b with px := 100, py := 400 }) ∧
    (∀ pi o, s.player_idx = some pi → getObj s.objects pi = some o →
      isPlayerK o = true →
      ∃ o', getObj (reset_game s).objects pi = some o' ∧ healthOf o' = some 100) ∧
    (∀ o' ∈ (reset_game s).objects, isCollectible o' = true →
      o'.active = true ∧ collectedOf o' = some false) ∧
    (reset_game s).game_data = s.game_data ∧
    (reset_game s).assets = s.assets ∧
    (reset_game s).background = s.background ∧
    (reset_game s).objects.map stripMut = s.objects.map stripMut := by
  refine ⟨?_, ?_, ?_, ?_, ?_, ?_, ?_, ?_⟩
  · unfold reset_game
    dsimp only
    split
    · split <;> rfl
    · rfl
  · intro pi hpi b hb
    unfold reset_game
    dsimp only
    split
    · next pi' hpi' =>
        split
        · next b' hb' =>
            rw [hpi'] at hpi
            rw [hb'] at hb
            cases hpi
            cases hb
            rfl
        · next hb' => rw [hb'] at hb; cases hb
    · next hpi' => rw [hpi'] at hpi; cases hpi
  · intro pi o hpi hg hpk
    unfold reset_game
    dsimp only
    split
    · next pi' hpi' =>
        rw [hpi'] at hpi
        obtain rfl : pi' = pi := by injection hpi
        have hmid : getObj (modifyAt s.objects pi' (setHealth 100)) pi'
            = some (setHealth 100 o) := modifyAt_getObj_self _ _ _ _ hg
        split
        · next b' hb' =>
            refine ⟨resetCollectible (setHealth 100 o), ?_, healthOf_reset_setHealth o hpk⟩
            rw [getObj_map, hmid, Option.map_some']
        · next hb' =>
            refine ⟨resetCollectible (setHealth 100 o), ?_, healthOf_reset_setHealth o hpk⟩
            rw [getObj_map, hmid, Option.map_some']
    · next hpi' => rw [hpi'] at hpi; cases hpi
  · have hmapped : ∃ X : List Obj, (reset_game s).objects = X.map resetCollectible := by
      unfold reset_game
      dsimp only
      split
      · split
        · exact ⟨_, rfl⟩
        · exact ⟨_, rfl⟩
      · exact ⟨_, rfl⟩
    obtain ⟨X, hX⟩ := hmapped
    intro o' ho' hc'
    rw [hX] at ho'
    obtain ⟨o0, _, rfl⟩ := List.mem_map.mp ho'
    exact resetCollectible_state o0 (by rw [← resetCollectible_isCollectible]; exact hc')
  · unfold reset_game
    dsimp only
    split
    · split <;> rfl
    · rfl
  · unfold reset_game
    dsimp only
    split
    · split <;> rfl
    · rfl
  · unfold reset_game
    dsimp only
    split
    · split <;> rfl
    · rfl
  · unfold reset_game
    dsimp only
    split
    · next pi' hpi' =>
        have hrw : ∀ L : List Obj, (L.map resetCollectible).map stripMut = L.map stripMut := by
          intro L
          rw [List.map_map]
          exact List.map_congr_left (fun o _ => stripMut_resetCollectible o)
        split
        · rw [hrw, map_modifyAt_invariant stripMut _ (stripMut_setHealth 100)]
        · rw [hrw, map_modifyAt_invariant stripMut _ (stripMut_setHealth 100)]
    · rw [List.map_map]
      exact List.map_congr_left (fun o _ => stripMut_resetCollectible o)

/-- C7 witness: the reset contract evaluated at the concrete mid-session
engine (damaged player, collected collectible, raised flags). -/
theorem reset_game_spec_witness :
    (reset_game engMid).game_state = {} ∧
    (reset_game engMid).body = some { px := 100, py := 400, vx := 1, vy := 2 } := by
  have h := reset_game_spec engMid
  exact ⟨h.1, h.2.1 0 rfl { px := 7, py := 8, vx := 1, vy := 2 } rfl⟩

/-- C10: during initialization, a GameObject is created for an entity iff
its type is `player` or its type or name contains `enemy`
(case-insensitive) — the created objects' names are exactly the names of
the entities passing that filter — and processing any other entity
appends nothing: it only repaints the previously created object with the
entity's declared color when that object has no sprite. -/
theorem create_entities_spec (assets : List String) (es : List EntityD) :
    (create_entities assets es).map Obj.name = (es.filter isSimEntity).map EntityD.name ∧
    (∀ (objs : List Obj) (o : Obj) (e : EntityD),
      isSimEntity e = false → o.sprite = false →
      create_entity_step assets (objs ++ [o]) e
        = objs ++ [{ o with color := entityColor e }]) := by
  constructor
  · have h := create_entities_go assets es []
    simpa [create_entities] using h
  · intro objs o e he hs
    have h' : (e.type == "player") = false ∧
        (strContains (strLower e.type) "enemy"
          || strContains (strLower e.name) "enemy") = false := by
      unfold isSimEntity at he
      rw [Bool.or_assoc, Bool.or_eq_false_iff] at he
      exact he
    unfold create_entity_step
    rw [if_neg (by rw [h'.1]; exact Bool.false_ne_true),
      if_neg (by rw [h'.2]; exact Bool.false_ne_true),
      applyColorLast_append, if_pos (by rw [hs]; rfl)]

/-- C10 witness: the creation filter and the color redirection evaluated
at a player entity followed by an `item` entity with color #FF0000. -/
theorem create_entities_spec_witness :
    (create_entities [] [heroPlainE, itemE]).map Obj.name
      = ([heroPlainE, itemE].filter isSimEntity).map EntityD.name ∧
    create_entity_step [] ([] ++ [mkPlayerObj [] heroPlainE]) itemE
      = [] ++ [{ mkPlayerObj [] heroPlainE with color := entityColor itemE }] :=
  ⟨(create_entities_spec [] [heroPlainE, itemE]).1,
   (create_entities_spec [] [heroPlainE, itemE]).2 [] (mkPlayerObj [] heroPlainE) itemE
     (by decide) rfl⟩

end GameBuilder
